import Mathlib

/-!
# op-signer client: `NewSignerClient`, `pingVersion`, `SignTransaction`

A shallow embedding of `op-signer/client/client.go`.

The file is glue around four external libraries (`os`, `crypto/x509`/`crypto/tls`,
`github.com/dyson/certman`, go-ethereum `rpc`/`types`).  Every answer the environment gives
to the program is a field of `World`; every call the program makes on the environment is an
`Event` appended to the trace the functions return, in program order.  Each function of
`client.go` calls each external operation at most once per run, so one answer per
operation and argument describes a whole run.

Go values: an `error` is `Option GoError` (`none` is `nil`), a pointer is an `Option`
(`none` is `nil`), a `(value, error)` result is a pair, and a run-time panic that nothing
recovers, the death of the process, is `Outcome.panicked`.
-/

namespace OpSigner

/-! ## Go values -/

/-- Byte sequences: `[]byte`, `hexutil.Bytes`. -/
abbrev Bytes := List UInt8

/-- A non-nil Go `error`: any error value with its message, or the `*fmt.wrapError`
that `fmt.Errorf` builds for a format with one `%w` verb. -/
inductive GoError where
  | errorString (msg : String)
  | wrapError (msg : String) (err : GoError)
  deriving DecidableEq, Repr

/-- The method `Error() string`. -/
def GoError.Error : GoError → String
  | .errorString msg => msg
  | .wrapError msg _ => msg

/-- The method `Unwrap() error` as `errors.Unwrap` sees it. -/
def GoError.Unwrap : GoError → Option GoError
  | .errorString _ => none
  | .wrapError _ err => some err

/-- Go `fmt.Errorf(lead + "%w", err)`: the message is the format with `%w` replaced by
`err.Error()`, and the result unwraps to `err`. -/
def Errorf (lead : String) (err : GoError) : GoError :=
  .wrapError (lead ++ err.Error) err

/-- Result of running Go code that may panic: it returns, or the process dies. -/
inductive Outcome (α : Type) where
  | returned (a : α)
  | panicked
  deriving Repr

/-- Go `time.Second`, in nanoseconds (`time.Duration` is an `int64` count of nanoseconds). -/
def Second : Nat := 1000000000

/-- Go `context.Context` values, by the way they were built. -/
inductive Context where
  | Background
  | WithTimeout (parent : Context) (timeout : Nat)
  | WithCancel (parent : Context)
  deriving DecidableEq, Repr

/-- Go `log.Logger` of go-ethereum, a handle. -/
structure Logger where
  name : String
  deriving DecidableEq, Repr

/-! ## crypto/x509 and crypto/tls -/

/-- Go `x509.Certificate`. -/
structure X509Certificate where
  Raw : Bytes
  deriving DecidableEq, Repr

/-- Go `x509.CertPool`: the certificates it holds. -/
abbrev CertPool := List X509Certificate

/-- Go `x509.NewCertPool()`: a new, empty pool. -/
def NewCertPool : CertPool := []

/-- Go `tls.Certificate`: a certificate chain with its private key. -/
structure TLSCertificate where
  Certificate : List Bytes
  PrivateKey : Bytes
  deriving DecidableEq, Repr

/-- Go `tls.CertificateRequestInfo`. -/
structure CertificateRequestInfo where
  AcceptableCAs : List Bytes
  Version : Nat
  deriving DecidableEq, Repr

/-- Go `tls.ClientHelloInfo`. -/
structure ClientHelloInfo where
  ServerName : String
  deriving DecidableEq, Repr

/-- Go `tls.VersionTLS13`. -/
def VersionTLS13 : Nat := 0x0304

/-! ## certman -/

/-- A non-nil `*certman.CertMan`: the address of a watcher. -/
abbrev CertManRef := Nat

/-- The state of one `certman.CertMan`: the files it watches and the pair it currently
holds (`nil` until a first load succeeds). -/
structure CertMan where
  certFile : String
  keyFile : String
  keyPair : Option TLSCertificate
  deriving DecidableEq, Repr

/-- The watchers in memory at one moment. -/
abbrev Heap := CertManRef → CertMan

/-- Go `tls.Config`, with the fields `NewSignerClient` sets and `InsecureSkipVerify`, which it
leaves at its zero value.  `GetClientCertificate` is a closure: it runs against the
memory of the moment it is called in. -/
structure TLSConfig where
  MinVersion : Nat
  RootCAs : CertPool
  InsecureSkipVerify : Bool
  GetClientCertificate : Heap → CertificateRequestInfo → Option TLSCertificate × Option GoError

/-- Go `http.Transport`. -/
structure Transport where
  TLSClientConfig : TLSConfig

/-- Go `http.Client`. -/
structure HTTPClient where
  Transport : Transport

/-- Go `rpc.Client` as `rpc.DialOptions(ctx, endpoint, rpc.WithHTTPClient(httpClient))`
builds it: it talks to `endpoint` through `httpClient`. -/
structure RPCClient where
  endpoint : String
  httpClient : HTTPClient

/-! ## The client -/

/-- Go `optls.CLIConfig`: the three paths. -/
structure CLIConfig where
  TLSCaCert : String
  TLSCert : String
  TLSKey : String
  deriving DecidableEq, Repr

/-- Go `SignerClient`. -/
structure SignerClient where
  client : RPCClient
  status : String
  logger : Logger

/-- Calls the program makes on its environment, in the order it makes them.  `Args` is the
type of the values passed as JSON-RPC arguments. -/
inductive Event (Args : Type) where
  | ReadFile (name : String)
  | certmanNew (certFile keyFile : String)
  | certmanLogger (cm : Option CertManRef) (logger : Logger)
  | certmanWatch (cm : CertManRef)
  | certmanStop (cm : CertManRef)
  | loggerError (logger : Logger) (msg : String) (err : GoError)
  | DialOptions (ctx : Context) (endpoint : String) (httpClient : HTTPClient)
  | CallContext (ctx : Context) (method : String) (args : List Args)
  | cancel (ctx : Context)

/-- The environment of one run.  `Tx` is `types.Transaction`, `Args` is `TransactionArgs`.

* `ReadFile`: `os.ReadFile`.
* `AppendCertsFromPEM pool pem`: the pool after `pool.AppendCertsFromPEM(pem)` and the
  boolean it reports (whether any certificate was parsed).
* `certmanNew`: `certman.New(certFile, keyFile)`, as the Go pair `(cm, err)`.
* `certmanWatch`: `cm.Watch()`.
* `certmanGetCertificate`: `cm.GetCertificate(hello)` on the state `cm` has when called.
* `DialOptions`: the error of `rpc.DialOptions`, `nil` when it returns a client.
* `CallContextString`, `CallContextBytes`: `client.CallContext(ctx, &result, method, args...)`
  for a `string` result and for a `hexutil.Bytes` result.  The call returns (`nil` with the
  result stored, or an error), or the process dies while it is under way: net/http runs the
  TLS handshake of a new connection in a goroutine of its own, where crypto/tls invokes
  `GetClientCertificate` and dereferences the certificate it returns with a nil error, so a
  nil certificate is a panic the caller of `CallContext` cannot recover.
* `NewTransactionArgsFromTransaction`: the projection of a transaction to its request
  (defined in another file of the package).
* `UnmarshalBinary`: `(*types.Transaction).UnmarshalBinary` on a fresh transaction. -/
structure World (Tx Args : Type) where
  ReadFile : String → Except GoError Bytes
  AppendCertsFromPEM : CertPool → Bytes → CertPool × Bool
  certmanNew : String → String → Option CertManRef × Option GoError
  certmanWatch : CertManRef → Option GoError
  certmanGetCertificate : CertMan → Option ClientHelloInfo → Option TLSCertificate × Option GoError
  DialOptions : Context → String → HTTPClient → Option GoError
  CallContextString :
    RPCClient → Context → String → List Args → Outcome (Except GoError String)
  CallContextBytes :
    RPCClient → Context → String → List Args → Outcome (Except GoError Bytes)
  NewTransactionArgsFromTransaction : Tx → Args
  UnmarshalBinary : Bytes → Except GoError Tx

variable {Tx Args : Type}

/-- Go `cm.Logger(logger)`.  `(*CertMan).Logger` of certman stores the logger in its receiver
(`cm.log = logger`): on a nil receiver that store is a nil-pointer dereference, a run-time
panic. -/
def CertMan_Logger (cm : Option CertManRef) (_logger : Logger) : Outcome Unit :=
  match cm with
  | none => .panicked
  | some _ => .returned ()

/-- Go `cm.Watch()`.  `(*CertMan).Watch` of certman starts by storing the new filesystem
watcher in its receiver, a panic on a nil receiver; on a watcher that exists the
environment decides whether it starts. -/
def CertMan_Watch (w : World Tx Args) (cm : Option CertManRef) :
    Outcome (CertManRef × Option GoError) :=
  match cm with
  | none => .panicked
  | some c => .returned (c, w.certmanWatch c)

/-- Lines 51-61: the `http.Client` literal.  The callback closes over the pointer `cm`
and calls `cm.GetCertificate(nil)` when it is invoked. -/
def newHTTPClient (w : World Tx Args) (caCertPool : CertPool) (cm : CertManRef) : HTTPClient :=
  { Transport :=
    { TLSClientConfig :=
      { MinVersion := VersionTLS13
        RootCAs := caCertPool
        InsecureSkipVerify := false
        GetClientCertificate := fun heap _ => w.certmanGetCertificate (heap cm) none } } }

/-- Go `func (s *SignerClient) pingVersion() (string, error)`.  The deferred `cancel` runs
when the function returns, not when the process dies during the call. -/
def SignerClient.pingVersion (w : World Tx Args) (s : SignerClient) :
    Outcome (String × Option GoError) × List (Event Args) :=
  let ctx := Context.WithTimeout .Background (Second * 3)
  match w.CallContextString s.client ctx "health_status" [] with
  | .panicked => (.panicked, [.CallContext ctx "health_status" []])
  | .returned (.error err) =>
    (.returned ("", some err), [.CallContext ctx "health_status" [], .cancel ctx])
  | .returned (.ok v) =>
    (.returned (v, none), [.CallContext ctx "health_status" [], .cancel ctx])

/-- Go `func NewSignerClient(logger, endpoint, tlsConfig) (*SignerClient, error)`. -/
def NewSignerClient (w : World Tx Args) (logger : Logger) (endpoint : String)
    (tlsConfig : CLIConfig) :
    Outcome (Option SignerClient × Option GoError) × List (Event Args) :=
  match w.ReadFile tlsConfig.TLSCaCert with
  | .error err =>
    (.returned (none, some (Errorf "failed to read tls.ca: " err)),
      [.ReadFile tlsConfig.TLSCaCert])
  | .ok caCert =>
    let caCertPool := (w.AppendCertsFromPEM NewCertPool caCert).1
    let (cm, err) := w.certmanNew tlsConfig.TLSCert tlsConfig.TLSKey
    let t1 : List (Event Args) :=
      [.ReadFile tlsConfig.TLSCaCert, .certmanNew tlsConfig.TLSCert tlsConfig.TLSKey,
        .certmanLogger cm logger]
    match CertMan_Logger cm logger with
    | .panicked => (.panicked, t1)
    | .returned () =>
      match err with
      | some err =>
        (.returned (none, some err),
          t1 ++ [.loggerError logger "failed to read tls cert or key" err])
      | none =>
        match CertMan_Watch w cm with
        | .panicked => (.panicked, t1)
        | .returned (cm, some err) =>
          (.returned (none, some err),
            t1 ++ [.certmanWatch cm, .loggerError logger "failed to start certman watcher" err])
        | .returned (cm, none) =>
          let httpClient := newHTTPClient w caCertPool cm
          let t2 := t1 ++ [.certmanWatch cm, .DialOptions .Background endpoint httpClient]
          match w.DialOptions .Background endpoint httpClient with
          | some err => (.returned (none, some err), t2)
          | none =>
            let rpcClient : RPCClient := { endpoint := endpoint, httpClient := httpClient }
            let signer : SignerClient := { logger := logger, client := rpcClient, status := "" }
            match signer.pingVersion w with
            | (.panicked, t3) => (.panicked, t2 ++ t3)
            | (.returned (_, some err), t3) => (.returned (none, some err), t2 ++ t3)
            | (.returned (version, none), t3) =>
              (.returned (some { signer with status := "ok [version=" ++ version ++ "]" }, none),
                t2 ++ t3)

/-- Go `func NewSignerClientFromConfig(logger, config) (*SignerClient, error)`, with the two
fields of `config` it reads. -/
def NewSignerClientFromConfig (w : World Tx Args) (logger : Logger) (Endpoint : String)
    (TLSConfig : CLIConfig) :
    Outcome (Option SignerClient × Option GoError) × List (Event Args) :=
  NewSignerClient w logger Endpoint TLSConfig

/-- Go `func (s *SignerClient) SignTransaction(ctx, tx) (*types.Transaction, error)`. -/
def SignerClient.SignTransaction (w : World Tx Args) (s : SignerClient) (ctx : Context)
    (tx : Tx) : Outcome (Option Tx × Option GoError) × List (Event Args) :=
  let args := w.NewTransactionArgsFromTransaction tx
  match w.CallContextBytes s.client ctx "eth_signTransaction" [args] with
  | .panicked => (.panicked, [.CallContext ctx "eth_signTransaction" [args]])
  | .returned (.error err) =>
    (.returned (none, some (Errorf "eth_signTransaction failed: " err)),
      [.CallContext ctx "eth_signTransaction" [args]])
  | .returned (.ok result) =>
    match w.UnmarshalBinary result with
    | .error err =>
      (.returned (none, some err), [.CallContext ctx "eth_signTransaction" [args]])
    | .ok signed =>
      (.returned (some signed, none), [.CallContext ctx "eth_signTransaction" [args]])

/-! ## Reading a trace -/

/-- Whether a call of the trace is a remote call (`CallContext`). -/
def Event.isCallContext : Event Args → Bool
  | .CallContext _ _ _ => true
  | _ => false

/-- The HTTP clients handed to `rpc.DialOptions` in a trace. -/
def dialedWith : List (Event Args) → List HTTPClient
  | [] => []
  | .DialOptions _ _ httpClient :: rest => httpClient :: dialedWith rest
  | _ :: rest => dialedWith rest

/-- Whether a trace has a `Stop` call on some watcher. -/
def hasStop : List (Event Args) → Bool
  | [] => false
  | .certmanStop _ :: _ => true
  | _ :: rest => hasStop rest

/-- Whether watcher `cm` runs after the calls of a trace, given whether it ran before: a
`Watch` that returns nil starts it, a `Stop` stops it. -/
def watcherRunningFrom (w : World Tx Args) (cm : CertManRef) (running : Bool) :
    List (Event Args) → Bool
  | [] => running
  | .certmanWatch c :: rest =>
    watcherRunningFrom w cm (running || (c == cm && (w.certmanWatch c).isNone)) rest
  | .certmanStop c :: rest => watcherRunningFrom w cm (running && c != cm) rest
  | _ :: rest => watcherRunningFrom w cm running rest

/-- Whether watcher `cm` runs after the calls of a trace that starts with no watcher
running. -/
def watcherRunning (w : World Tx Args) (cm : CertManRef) (trace : List (Event Args)) : Bool :=
  watcherRunningFrom w cm false trace

/-! ## Concrete environments

Transactions and requests are numbers here; a signed transaction is encoded as the one byte
of its number, and no other byte sequence decodes. -/

/-- An environment that gives the listed answers whatever the arguments, and in which
every remote call returns.  Its `GetCertificate` is the one of certman: the pair the
watcher holds, and a nil error. -/
def scriptedWorld (ca : Except GoError Bytes) (pool : CertPool × Bool)
    (cm : Option CertManRef × Option GoError) (watch dial : Option GoError)
    (health : Except GoError String) (sign : Except GoError Bytes) : World Nat Nat :=
  { ReadFile := fun _ => ca
    AppendCertsFromPEM := fun _ _ => pool
    certmanNew := fun _ _ => cm
    certmanWatch := fun _ => watch
    certmanGetCertificate := fun st _ => (st.keyPair, none)
    DialOptions := fun _ _ _ => dial
    CallContextString := fun _ _ _ _ => .returned health
    CallContextBytes := fun _ _ _ _ => .returned sign
    NewTransactionArgsFromTransaction := fun tx => tx
    UnmarshalBinary := fun b =>
      match b with
      | [n] => .ok n.toNat
      | _ => .error (.errorString "typed transaction too short") }

/-- A certificate authority. -/
def demoRoot : X509Certificate := { Raw := [48, 130, 1, 10] }

/-- Everything succeeds: the CA file holds one certificate, the signer answers `v1.2.0`
to the probe and the bytes `[7]` to a signing request. -/
def healthyWorld : World Nat Nat :=
  scriptedWorld (.ok [45, 45, 45]) ([demoRoot], true) (some 1, none) none none (.ok "v1.2.0")
    (.ok [7])

/-- As `healthyWorld`, with a CA file that is read and holds no certificate. -/
def malformedCAWorld : World Nat Nat :=
  scriptedWorld (.ok [104, 105]) ([], false) (some 1, none) none none (.ok "v1.2.0") (.ok [7])

/-- As `healthyWorld`, with a dial that fails. -/
def dialFailsWorld : World Nat Nat :=
  scriptedWorld (.ok [45, 45, 45]) ([demoRoot], true) (some 1, none) none
    (some (.errorString "no known transport for URL scheme tcp")) (.ok "v1.2.0") (.ok [7])

/-- As `healthyWorld`, with a signer that does not answer the probe. -/
def probeFailsWorld : World Nat Nat :=
  scriptedWorld (.ok [45, 45, 45]) ([demoRoot], true) (some 1, none) none none
    (.error (.errorString "context deadline exceeded")) (.ok [7])

/-- As `healthyWorld`, with a `certman.New` that fails, as certman does: a nil watcher and
the error. -/
def newFailsWorld : World Nat Nat :=
  scriptedWorld (.ok [45, 45, 45]) ([demoRoot], true)
    (none, some (.errorString "getwd: no such file or directory")) none none (.ok "v1.2.0")
    (.ok [7])

/-- As `healthyWorld`, with a signer that rejects signing requests. -/
def rejectingWorld : World Nat Nat :=
  scriptedWorld (.ok [45, 45, 45]) ([demoRoot], true) (some 1, none) none none (.ok "v1.2.0")
    (.error (.errorString "sender not authorized"))

/-- As `healthyWorld`, with a signer that answers a signing request with no bytes. -/
def garbageWorld : World Nat Nat :=
  scriptedWorld (.ok [45, 45, 45]) ([demoRoot], true) (some 1, none) none none (.ok "v1.2.0")
    (.ok [])

/-- The paths and names of the concrete runs. -/
def demoConfig : CLIConfig := { TLSCaCert := "tls/ca.crt", TLSCert := "tls/tls.crt", TLSKey := "tls/tls.key" }

/-- The logger of the concrete runs. -/
def demoLogger : Logger := { name := "signer" }

/-- The client a successful construction in `healthyWorld` returns. -/
def demoClient : SignerClient :=
  { client := { endpoint := "https://signer:8080",
                httpClient := newHTTPClient healthyWorld [demoRoot] 1 }
    status := "ok [version=v1.2.0]"
    logger := demoLogger }

/-- Two certificate pairs. -/
def pairA : TLSCertificate := { Certificate := [[1]], PrivateKey := [10] }

/-- The second pair. -/
def pairB : TLSCertificate := { Certificate := [[2]], PrivateKey := [20] }

/-- Memory in which every watcher holds `pair`. -/
def heapWith (pair : TLSCertificate) : Heap :=
  fun _ => { certFile := "tls/tls.crt", keyFile := "tls/tls.key", keyPair := some pair }

/-- Memory in which no watcher holds a pair: the load `Watch` starts with has failed. -/
def heapWithout : Heap :=
  fun _ => { certFile := "tls/tls.crt", keyFile := "tls/tls.key", keyPair := none }

/-- As `healthyWorld`, with certificate and key files that exist and do not parse as a pair.
`certman.New` only resolves the two paths and `Watch` only logs a load that fails, so both
return nil and the watcher holds no pair (`heapWithout`).  The signer asks for a client
certificate in the handshake of the probe, and what the call does follows the answer of the
callback of the client it is made on: a nil certificate with a nil error is dereferenced by
crypto/tls and the process dies, an error aborts the handshake and the call fails on it,
and with a certificate the signer answers `v1.2.0`. -/
def unparsablePairWorld : World Nat Nat :=
  { healthyWorld with
    CallContextString := fun client _ _ _ =>
      match client.httpClient.Transport.TLSClientConfig.GetClientCertificate heapWithout
          { AcceptableCAs := [demoRoot.Raw], Version := VersionTLS13 } with
      | (none, none) => .panicked
      | (_, some err) => .returned (.error (Errorf "Post https://signer:8080: " err))
      | (some _, none) => .returned (.ok "v1.2.0") }

/-! ## Paths through NewSignerClient -/

theorem NewSignerClient_read_fails (w : World Tx Args) (logger : Logger) (endpoint : String)
    (tlsConfig : CLIConfig) (e : GoError) (hca : w.ReadFile tlsConfig.TLSCaCert = .error e) :
    NewSignerClient w logger endpoint tlsConfig =
      (.returned (none, some (Errorf "failed to read tls.ca: " e)),
        [.ReadFile tlsConfig.TLSCaCert]) := by
  simp only [NewSignerClient, hca]

theorem NewSignerClient_new_nil (w : World Tx Args) (logger : Logger) (endpoint : String)
    (tlsConfig : CLIConfig) (caCert : Bytes) (err : Option GoError)
    (hca : w.ReadFile tlsConfig.TLSCaCert = .ok caCert)
    (hnew : w.certmanNew tlsConfig.TLSCert tlsConfig.TLSKey = (none, err)) :
    NewSignerClient w logger endpoint tlsConfig =
      (.panicked,
        [.ReadFile tlsConfig.TLSCaCert, .certmanNew tlsConfig.TLSCert tlsConfig.TLSKey,
          .certmanLogger none logger]) := by
  simp only [NewSignerClient, hca, hnew, CertMan_Logger]

theorem NewSignerClient_new_fails (w : World Tx Args) (logger : Logger) (endpoint : String)
    (tlsConfig : CLIConfig) (caCert : Bytes) (cm : CertManRef) (e : GoError)
    (hca : w.ReadFile tlsConfig.TLSCaCert = .ok caCert)
    (hnew : w.certmanNew tlsConfig.TLSCert tlsConfig.TLSKey = (some cm, some e)) :
    NewSignerClient w logger endpoint tlsConfig =
      (.returned (none, some e),
        [.ReadFile tlsConfig.TLSCaCert, .certmanNew tlsConfig.TLSCert tlsConfig.TLSKey,
          .certmanLogger (some cm) logger,
          .loggerError logger "failed to read tls cert or key" e]) := by
  simp only [NewSignerClient, hca, hnew, CertMan_Logger, List.cons_append, List.nil_append]

theorem NewSignerClient_watch_fails (w : World Tx Args) (logger : Logger) (endpoint : String)
    (tlsConfig : CLIConfig) (caCert : Bytes) (cm : CertManRef) (e : GoError)
    (hca : w.ReadFile tlsConfig.TLSCaCert = .ok caCert)
    (hnew : w.certmanNew tlsConfig.TLSCert tlsConfig.TLSKey = (some cm, none))
    (hwatch : w.certmanWatch cm = some e) :
    NewSignerClient w logger endpoint tlsConfig =
      (.returned (none, some e),
        [.ReadFile tlsConfig.TLSCaCert, .certmanNew tlsConfig.TLSCert tlsConfig.TLSKey,
          .certmanLogger (some cm) logger, .certmanWatch cm,
          .loggerError logger "failed to start certman watcher" e]) := by
  simp only [NewSignerClient, hca, hnew, CertMan_Logger, CertMan_Watch, hwatch,
    List.cons_append, List.nil_append]

theorem NewSignerClient_dial_fails (w : World Tx Args) (logger : Logger) (endpoint : String)
    (tlsConfig : CLIConfig) (caCert : Bytes) (cm : CertManRef) (e : GoError)
    (hca : w.ReadFile tlsConfig.TLSCaCert = .ok caCert)
    (hnew : w.certmanNew tlsConfig.TLSCert tlsConfig.TLSKey = (some cm, none))
    (hwatch : w.certmanWatch cm = none)
    (hdial : w.DialOptions .Background endpoint
      (newHTTPClient w (w.AppendCertsFromPEM NewCertPool caCert).1 cm) = some e) :
    NewSignerClient w logger endpoint tlsConfig =
      (.returned (none, some e),
        [.ReadFile tlsConfig.TLSCaCert, .certmanNew tlsConfig.TLSCert tlsConfig.TLSKey,
          .certmanLogger (some cm) logger, .certmanWatch cm,
          .DialOptions .Background endpoint
            (newHTTPClient w (w.AppendCertsFromPEM NewCertPool caCert).1 cm)]) := by
  simp only [NewSignerClient, hca, hnew, CertMan_Logger, CertMan_Watch, hwatch, hdial,
    List.cons_append, List.nil_append]

theorem NewSignerClient_probe_fails (w : World Tx Args) (logger : Logger) (endpoint : String)
    (tlsConfig : CLIConfig) (caCert : Bytes) (cm : CertManRef) (e : GoError)
    (hca : w.ReadFile tlsConfig.TLSCaCert = .ok caCert)
    (hnew : w.certmanNew tlsConfig.TLSCert tlsConfig.TLSKey = (some cm, none))
    (hwatch : w.certmanWatch cm = none)
    (hdial : w.DialOptions .Background endpoint
      (newHTTPClient w (w.AppendCertsFromPEM NewCertPool caCert).1 cm) = none)
    (hcall : w.CallContextString
      { endpoint := endpoint,
        httpClient := newHTTPClient w (w.AppendCertsFromPEM NewCertPool caCert).1 cm }
      (.WithTimeout .Background 3000000000) "health_status" [] = .returned (.error e)) :
    NewSignerClient w logger endpoint tlsConfig =
      (.returned (none, some e),
        [.ReadFile tlsConfig.TLSCaCert, .certmanNew tlsConfig.TLSCert tlsConfig.TLSKey,
          .certmanLogger (some cm) logger, .certmanWatch cm,
          .DialOptions .Background endpoint
            (newHTTPClient w (w.AppendCertsFromPEM NewCertPool caCert).1 cm),
          .CallContext (.WithTimeout .Background 3000000000) "health_status" [],
          .cancel (.WithTimeout .Background 3000000000)]) := by
  have h3 : Second * 3 = 3000000000 := by decide
  simp only [NewSignerClient, hca, hnew, CertMan_Logger, CertMan_Watch, hwatch, hdial,
    SignerClient.pingVersion, h3, hcall, List.cons_append, List.nil_append]

theorem NewSignerClient_probe_ok (w : World Tx Args) (logger : Logger) (endpoint : String)
    (tlsConfig : CLIConfig) (caCert : Bytes) (cm : CertManRef) (v : String)
    (hca : w.ReadFile tlsConfig.TLSCaCert = .ok caCert)
    (hnew : w.certmanNew tlsConfig.TLSCert tlsConfig.TLSKey = (some cm, none))
    (hwatch : w.certmanWatch cm = none)
    (hdial : w.DialOptions .Background endpoint
      (newHTTPClient w (w.AppendCertsFromPEM NewCertPool caCert).1 cm) = none)
    (hcall : w.CallContextString
      { endpoint := endpoint,
        httpClient := newHTTPClient w (w.AppendCertsFromPEM NewCertPool caCert).1 cm }
      (.WithTimeout .Background 3000000000) "health_status" [] = .returned (.ok v)) :
    NewSignerClient w logger endpoint tlsConfig =
      (.returned
        (some
          { client :=
              { endpoint := endpoint,
                httpClient := newHTTPClient w (w.AppendCertsFromPEM NewCertPool caCert).1 cm }
            status := "ok [version=" ++ v ++ "]"
            logger := logger }, none),
        [.ReadFile tlsConfig.TLSCaCert, .certmanNew tlsConfig.TLSCert tlsConfig.TLSKey,
          .certmanLogger (some cm) logger, .certmanWatch cm,
          .DialOptions .Background endpoint
            (newHTTPClient w (w.AppendCertsFromPEM NewCertPool caCert).1 cm),
          .CallContext (.WithTimeout .Background 3000000000) "health_status" [],
          .cancel (.WithTimeout .Background 3000000000)]) := by
  have h3 : Second * 3 = 3000000000 := by decide
  simp only [NewSignerClient, hca, hnew, CertMan_Logger, CertMan_Watch, hwatch, hdial,
    SignerClient.pingVersion, h3, hcall, List.cons_append, List.nil_append]

theorem NewSignerClient_probe_dies (w : World Tx Args) (logger : Logger) (endpoint : String)
    (tlsConfig : CLIConfig) (caCert : Bytes) (cm : CertManRef)
    (hca : w.ReadFile tlsConfig.TLSCaCert = .ok caCert)
    (hnew : w.certmanNew tlsConfig.TLSCert tlsConfig.TLSKey = (some cm, none))
    (hwatch : w.certmanWatch cm = none)
    (hdial : w.DialOptions .Background endpoint
      (newHTTPClient w (w.AppendCertsFromPEM NewCertPool caCert).1 cm) = none)
    (hcall : w.CallContextString
      { endpoint := endpoint,
        httpClient := newHTTPClient w (w.AppendCertsFromPEM NewCertPool caCert).1 cm }
      (.WithTimeout .Background 3000000000) "health_status" [] = .panicked) :
    NewSignerClient w logger endpoint tlsConfig =
      (.panicked,
        [.ReadFile tlsConfig.TLSCaCert, .certmanNew tlsConfig.TLSCert tlsConfig.TLSKey,
          .certmanLogger (some cm) logger, .certmanWatch cm,
          .DialOptions .Background endpoint
            (newHTTPClient w (w.AppendCertsFromPEM NewCertPool caCert).1 cm),
          .CallContext (.WithTimeout .Background 3000000000) "health_status" []]) := by
  have h3 : Second * 3 = 3000000000 := by decide
  simp only [NewSignerClient, hca, hnew, CertMan_Logger, CertMan_Watch, hwatch, hdial,
    SignerClient.pingVersion, h3, hcall, List.cons_append, List.nil_append]

/-- The result of `pingVersion` follows the answer of the one call it makes. -/
theorem pingVersion_eq (w : World Tx Args) (s : SignerClient) :
    (s.pingVersion w).1 =
      (match w.CallContextString s.client (.WithTimeout .Background 3000000000)
          "health_status" [] with
        | .returned (.ok v) => .returned (v, none)
        | .returned (.error e) => .returned ("", some e)
        | .panicked => .panicked) := by
  have h3 : Second * 3 = 3000000000 := by decide
  simp only [SignerClient.pingVersion, h3]
  rcases w.CallContextString s.client (.WithTimeout .Background 3000000000) "health_status" []
    with ⟨_ | _⟩ | _ <;> rfl

/-- After the watcher is started, the run dials once, with the HTTP client of lines 51-61,
and a client it returns talks through that HTTP client. -/
theorem NewSignerClient_dials_with (w : World Tx Args) (logger : Logger) (endpoint : String)
    (tlsConfig : CLIConfig) (caCert : Bytes) (cm : CertManRef)
    (hca : w.ReadFile tlsConfig.TLSCaCert = .ok caCert)
    (hnew : w.certmanNew tlsConfig.TLSCert tlsConfig.TLSKey = (some cm, none))
    (hwatch : w.certmanWatch cm = none) :
    dialedWith (NewSignerClient w logger endpoint tlsConfig).2 =
        [newHTTPClient w (w.AppendCertsFromPEM NewCertPool caCert).1 cm] ∧
      ∀ c, (NewSignerClient w logger endpoint tlsConfig).1 = .returned (some c, none) →
        c.client.httpClient = newHTTPClient w (w.AppendCertsFromPEM NewCertPool caCert).1 cm := by
  cases hdial : w.DialOptions .Background endpoint
      (newHTTPClient w (w.AppendCertsFromPEM NewCertPool caCert).1 cm) with
  | some e =>
    rw [NewSignerClient_dial_fails w logger endpoint tlsConfig caCert cm e hca hnew hwatch hdial]
    exact ⟨rfl, fun c hc => by cases hc⟩
  | none =>
    rcases hcall : (w.CallContextString
        { endpoint := endpoint,
          httpClient := newHTTPClient w (w.AppendCertsFromPEM NewCertPool caCert).1 cm }
        (.WithTimeout .Background 3000000000) "health_status" []) with (e | v) | _
    · rw [NewSignerClient_probe_fails w logger endpoint tlsConfig caCert cm e hca hnew hwatch
        hdial hcall]
      exact ⟨rfl, fun c hc => by cases hc⟩
    · rw [NewSignerClient_probe_ok w logger endpoint tlsConfig caCert cm v hca hnew hwatch
        hdial hcall]
      exact ⟨rfl, fun c hc => by cases hc; rfl⟩
    · rw [NewSignerClient_probe_dies w logger endpoint tlsConfig caCert cm hca hnew hwatch
        hdial hcall]
      exact ⟨rfl, fun c hc => by cases hc⟩

/-- No path through `NewSignerClient` calls `Stop` on a watcher. -/
theorem NewSignerClient_hasStop (w : World Tx Args) (logger : Logger) (endpoint : String)
    (tlsConfig : CLIConfig) : hasStop (NewSignerClient w logger endpoint tlsConfig).2 = false := by
  cases hca : w.ReadFile tlsConfig.TLSCaCert with
  | error e => rw [NewSignerClient_read_fails w logger endpoint tlsConfig e hca]; rfl
  | ok caCert =>
    rcases hnew : w.certmanNew tlsConfig.TLSCert tlsConfig.TLSKey with ⟨_ | cm, err⟩
    · rw [NewSignerClient_new_nil w logger endpoint tlsConfig caCert err hca hnew]; rfl
    · cases err with
      | some e =>
        rw [NewSignerClient_new_fails w logger endpoint tlsConfig caCert cm e hca hnew]; rfl
      | none =>
        cases hwatch : w.certmanWatch cm with
        | some e =>
          rw [NewSignerClient_watch_fails w logger endpoint tlsConfig caCert cm e hca hnew
            hwatch]
          rfl
        | none =>
          cases hdial : w.DialOptions .Background endpoint
              (newHTTPClient w (w.AppendCertsFromPEM NewCertPool caCert).1 cm) with
          | some e =>
            rw [NewSignerClient_dial_fails w logger endpoint tlsConfig caCert cm e hca hnew
              hwatch hdial]
            rfl
          | none =>
            rcases hcall : (w.CallContextString
        { endpoint := endpoint,
          httpClient := newHTTPClient w (w.AppendCertsFromPEM NewCertPool caCert).1 cm }
        (.WithTimeout .Background 3000000000) "health_status" []) with (e | v) | _
            · rw [NewSignerClient_probe_fails w logger endpoint tlsConfig caCert cm e hca hnew
                hwatch hdial hcall]
              rfl
            · rw [NewSignerClient_probe_ok w logger endpoint tlsConfig caCert cm v hca hnew
                hwatch hdial hcall]
              rfl
            · rw [NewSignerClient_probe_dies w logger endpoint tlsConfig caCert cm hca hnew
                hwatch hdial hcall]
              rfl

/-- A run that started the watcher leaves it running. -/
theorem NewSignerClient_leaves_running (w : World Tx Args) (logger : Logger)
    (endpoint : String) (tlsConfig : CLIConfig) (caCert : Bytes) (cm : CertManRef)
    (hca : w.ReadFile tlsConfig.TLSCaCert = .ok caCert)
    (hnew : w.certmanNew tlsConfig.TLSCert tlsConfig.TLSKey = (some cm, none))
    (hwatch : w.certmanWatch cm = none) :
    watcherRunning w cm (NewSignerClient w logger endpoint tlsConfig).2 = true := by
  cases hdial : w.DialOptions .Background endpoint
      (newHTTPClient w (w.AppendCertsFromPEM NewCertPool caCert).1 cm) with
  | some e =>
    rw [NewSignerClient_dial_fails w logger endpoint tlsConfig caCert cm e hca hnew hwatch hdial]
    simp [watcherRunning, watcherRunningFrom, hwatch]
  | none =>
    rcases hcall : (w.CallContextString
        { endpoint := endpoint,
          httpClient := newHTTPClient w (w.AppendCertsFromPEM NewCertPool caCert).1 cm }
        (.WithTimeout .Background 3000000000) "health_status" []) with (e | v) | _
    · rw [NewSignerClient_probe_fails w logger endpoint tlsConfig caCert cm e hca hnew hwatch
        hdial hcall]
      simp [watcherRunning, watcherRunningFrom, hwatch]
    · rw [NewSignerClient_probe_ok w logger endpoint tlsConfig caCert cm v hca hnew hwatch
        hdial hcall]
      simp [watcherRunning, watcherRunningFrom, hwatch]
    · rw [NewSignerClient_probe_dies w logger endpoint tlsConfig caCert cm hca hnew hwatch
        hdial hcall]
      simp [watcherRunning, watcherRunningFrom, hwatch]

/-- What holds of every run that read the CA file and created and started the watcher: a
client with a nil error is returned exactly when the dial succeeds and the probe returns
without error; a dial that fails with `e` and a probe that returns the error `e` both end in
a nil client with `e`; and whenever the run returns at all, it returns a client with a nil
error or a nil client with an error. -/
theorem NewSignerClient_when_it_returns (w : World Tx Args) (logger : Logger)
    (endpoint : String) (tlsConfig : CLIConfig) (caCert : Bytes) (cm : CertManRef)
    (hca : w.ReadFile tlsConfig.TLSCaCert = .ok caCert)
    (hnew : w.certmanNew tlsConfig.TLSCert tlsConfig.TLSKey = (some cm, none))
    (hwatch : w.certmanWatch cm = none) :
    ((∃ c, (NewSignerClient w logger endpoint tlsConfig).1 = .returned (some c, none)) ↔
        (w.DialOptions .Background endpoint
            (newHTTPClient w (w.AppendCertsFromPEM NewCertPool caCert).1 cm) = none ∧
          ∃ v, (SignerClient.pingVersion w
            { client :=
                { endpoint := endpoint,
                  httpClient := newHTTPClient w (w.AppendCertsFromPEM NewCertPool caCert).1 cm }
              status := ""
              logger := logger }).1 = .returned (v, none))) ∧
      (∀ e, w.DialOptions .Background endpoint
            (newHTTPClient w (w.AppendCertsFromPEM NewCertPool caCert).1 cm) = some e →
        (NewSignerClient w logger endpoint tlsConfig).1 = .returned (none, some e)) ∧
      (∀ e, w.DialOptions .Background endpoint
            (newHTTPClient w (w.AppendCertsFromPEM NewCertPool caCert).1 cm) = none →
        w.CallContextString
        { endpoint := endpoint,
          httpClient := newHTTPClient w (w.AppendCertsFromPEM NewCertPool caCert).1 cm }
        (.WithTimeout .Background 3000000000) "health_status" [] = .returned (.error e) →
        (NewSignerClient w logger endpoint tlsConfig).1 = .returned (none, some e)) ∧
      (∀ r, (NewSignerClient w logger endpoint tlsConfig).1 = .returned r →
        (∃ c, r = (some c, none)) ∨ (∃ e, r = (none, some e))) := by
  cases hdial : w.DialOptions .Background endpoint
      (newHTTPClient w (w.AppendCertsFromPEM NewCertPool caCert).1 cm) with
  | some e =>
    rw [NewSignerClient_dial_fails w logger endpoint tlsConfig caCert cm e hca hnew hwatch hdial]
    simp
  | none =>
    rw [pingVersion_eq]
    rcases hcall : (w.CallContextString
        { endpoint := endpoint,
          httpClient := newHTTPClient w (w.AppendCertsFromPEM NewCertPool caCert).1 cm }
        (.WithTimeout .Background 3000000000) "health_status" []) with (e | v) | _
    · rw [NewSignerClient_probe_fails w logger endpoint tlsConfig caCert cm e hca hnew hwatch
        hdial hcall]
      simp
    · rw [NewSignerClient_probe_ok w logger endpoint tlsConfig caCert cm v hca hnew hwatch
        hdial hcall]
      simp
    · rw [NewSignerClient_probe_dies w logger endpoint tlsConfig caCert cm hca hnew hwatch
        hdial hcall]
      simp

/-! ## SignTransaction -/

/-- C1. When the remote `eth_signTransaction` call succeeds with the bytes `b`,
`SignTransaction` returns exactly what `UnmarshalBinary b` gives: the decoded transaction
with a nil error when decoding succeeds, a nil transaction with the decoding error when it
fails; so bytes that do not decode never come with a returned transaction. -/
theorem SignTransaction_returns_decoding (w : World Tx Args) (s : SignerClient) (ctx : Context)
    (tx : Tx) (b : Bytes)
    (hcall : w.CallContextBytes s.client ctx "eth_signTransaction"
      [w.NewTransactionArgsFromTransaction tx] = .returned (.ok b)) :
    (s.SignTransaction w ctx tx).1 =
        .returned
          (match w.UnmarshalBinary b with
            | .ok signed => (some signed, none)
            | .error err => (none, some err)) ∧
      (∀ err, w.UnmarshalBinary b = .error err →
        (s.SignTransaction w ctx tx).1 = .returned (none, some err)) := by
  constructor
  · simp only [SignerClient.SignTransaction, hcall]
    cases w.UnmarshalBinary b <;> rfl
  · intro err herr
    simp only [SignerClient.SignTransaction, hcall, herr]

/-- C4. When the remote `eth_signTransaction` call returns the error `e`, `SignTransaction`
returns a nil transaction and an error whose message is `"eth_signTransaction failed: "`
followed by the message of `e`, unchanged, and which unwraps to `e` itself. -/
theorem SignTransaction_remote_error (w : World Tx Args) (s : SignerClient) (ctx : Context)
    (tx : Tx) (e : GoError)
    (hcall : w.CallContextBytes s.client ctx "eth_signTransaction"
      [w.NewTransactionArgsFromTransaction tx] = .returned (.error e)) :
    ∃ err, (s.SignTransaction w ctx tx).1 = .returned (none, some err) ∧
      err.Error = "eth_signTransaction failed: " ++ e.Error ∧
      err.Unwrap = some e := by
  refine ⟨Errorf "eth_signTransaction failed: " e, ?_, rfl, rfl⟩
  simp only [SignerClient.SignTransaction, hcall]

/-- C8. Whatever the outcome, `SignTransaction` makes exactly one call on its environment: a
`CallContext` under the ctx of the caller, to method `eth_signTransaction`, with the one
argument `NewTransactionArgsFromTransaction tx`. -/
theorem SignTransaction_one_call (w : World Tx Args) (s : SignerClient) (ctx : Context)
    (tx : Tx) :
    (s.SignTransaction w ctx tx).2 =
      [Event.CallContext ctx "eth_signTransaction" [w.NewTransactionArgsFromTransaction tx]] := by
  simp only [SignerClient.SignTransaction]
  split
  · rfl
  · rfl
  · split <;> rfl

/-- Witness of C1: bytes that decode come back as the decoded transaction, bytes that do not
come back as the decoding error and no transaction. -/
theorem SignTransaction_returns_decoding_witness :
    (demoClient.SignTransaction healthyWorld .Background 7).1 = .returned (some 7, none) ∧
      (demoClient.SignTransaction garbageWorld .Background 7).1 =
        .returned (none, some (.errorString "typed transaction too short")) :=
  ⟨(SignTransaction_returns_decoding healthyWorld demoClient .Background 7 [7] rfl).1,
    (SignTransaction_returns_decoding garbageWorld demoClient .Background 7 [] rfl).2
      (.errorString "typed transaction too short") rfl⟩

/-- Witness of C4: a rejection `sender not authorized` reaches the caller inside the
returned error. -/
theorem SignTransaction_remote_error_witness :
    ∃ err, (demoClient.SignTransaction rejectingWorld .Background 7).1 =
        .returned (none, some err) ∧
      err.Error = "eth_signTransaction failed: " ++ "sender not authorized" ∧
      err.Unwrap = some (.errorString "sender not authorized") :=
  SignTransaction_remote_error rejectingWorld demoClient .Background 7
    (.errorString "sender not authorized") rfl

/-! ## NewSignerClient -/

/-- C3 at a failing input. In `unparsablePairWorld` the CA file is read, `certman.New` and
`Watch` return nil and the dial succeeds, so the run reaches the probe; the watcher holds
no pair, the callback of lines 56-58 answers the certificate request of the handshake with
a nil certificate and a nil error, and the process dies during the `health_status` call:
`NewSignerClient` returns neither a client nor an error. -/
theorem NewSignerClient_probe_kills_process :
    unparsablePairWorld.ReadFile demoConfig.TLSCaCert = .ok [45, 45, 45] ∧
      unparsablePairWorld.certmanNew demoConfig.TLSCert demoConfig.TLSKey = (some 1, none) ∧
      unparsablePairWorld.certmanWatch 1 = none ∧
      unparsablePairWorld.DialOptions .Background "https://signer:8080"
        (newHTTPClient unparsablePairWorld [demoRoot] 1) = none ∧
      (newHTTPClient unparsablePairWorld [demoRoot] 1).Transport.TLSClientConfig.GetClientCertificate
          heapWithout { AcceptableCAs := [demoRoot.Raw], Version := VersionTLS13 } =
        (none, none) ∧
      NewSignerClient unparsablePairWorld demoLogger "https://signer:8080" demoConfig =
        (.panicked,
          [.ReadFile "tls/ca.crt", .certmanNew "tls/tls.crt" "tls/tls.key",
            .certmanLogger (some 1) demoLogger, .certmanWatch 1,
            .DialOptions .Background "https://signer:8080"
              (newHTTPClient unparsablePairWorld [demoRoot] 1),
            .CallContext (.WithTimeout .Background (3 * Second)) "health_status" []]) :=
  ⟨rfl, rfl, rfl, rfl, rfl, rfl⟩

/-- C9. A run of `NewSignerClient` that reaches the probe (CA file read, watcher created
and started, dial succeeded) makes exactly one remote call before it returns: `health_status`,
with no arguments, under a context with a timeout of 3 seconds on the background context.
When the call succeeds with the string `v`, `pingVersion` returns `v` unchanged with a nil
error and the client returned has status `ok [version=v]`; when it fails with `e`,
`pingVersion` returns the empty string with `e`. -/
theorem NewSignerClient_probe_once (w : World Tx Args) (logger : Logger) (endpoint : String)
    (tlsConfig : CLIConfig) (caCert : Bytes) (cm : CertManRef)
    (hca : w.ReadFile tlsConfig.TLSCaCert = .ok caCert)
    (hnew : w.certmanNew tlsConfig.TLSCert tlsConfig.TLSKey = (some cm, none))
    (hwatch : w.certmanWatch cm = none)
    (hdial : w.DialOptions .Background endpoint
      (newHTTPClient w (w.AppendCertsFromPEM NewCertPool caCert).1 cm) = none) :
    (NewSignerClient w logger endpoint tlsConfig).2.filter Event.isCallContext =
        [.CallContext (.WithTimeout .Background (3 * Second)) "health_status" []] ∧
      (∀ v, w.CallContextString
          { endpoint := endpoint,
            httpClient := newHTTPClient w (w.AppendCertsFromPEM NewCertPool caCert).1 cm }
          (.WithTimeout .Background (3 * Second)) "health_status" [] = .returned (.ok v) →
        (SignerClient.pingVersion w
            { client :=
                { endpoint := endpoint,
                  httpClient := newHTTPClient w (w.AppendCertsFromPEM NewCertPool caCert).1 cm }
              status := ""
              logger := logger }).1 = .returned (v, none) ∧
          ∃ c, (NewSignerClient w logger endpoint tlsConfig).1 = .returned (some c, none) ∧
            c.status = "ok [version=" ++ v ++ "]") ∧
      (∀ e, w.CallContextString
          { endpoint := endpoint,
            httpClient := newHTTPClient w (w.AppendCertsFromPEM NewCertPool caCert).1 cm }
          (.WithTimeout .Background (3 * Second)) "health_status" [] = .returned (.error e) →
        (SignerClient.pingVersion w
            { client :=
                { endpoint := endpoint,
                  httpClient := newHTTPClient w (w.AppendCertsFromPEM NewCertPool caCert).1 cm }
              status := ""
              logger := logger }).1 = .returned ("", some e)) := by
  have h3 : 3 * Second = 3000000000 := by decide
  rw [h3, pingVersion_eq]
  rcases hcall : (w.CallContextString
      { endpoint := endpoint,
        httpClient := newHTTPClient w (w.AppendCertsFromPEM NewCertPool caCert).1 cm }
      (.WithTimeout .Background 3000000000) "health_status" []) with (e | v) | _
  · rw [NewSignerClient_probe_fails w logger endpoint tlsConfig caCert cm e hca hnew hwatch
      hdial hcall]
    refine ⟨by simp [List.filter, Event.isCallContext], ?_, ?_⟩
    · intro v hv
      cases hv
    · intro e2 he2
      cases he2
      rfl
  · rw [NewSignerClient_probe_ok w logger endpoint tlsConfig caCert cm v hca hnew hwatch
      hdial hcall]
    refine ⟨by simp [List.filter, Event.isCallContext], ?_, ?_⟩
    · intro v2 hv2
      cases hv2
      exact ⟨rfl, _, rfl, rfl⟩
    · intro e he
      cases he
  · rw [NewSignerClient_probe_dies w logger endpoint tlsConfig caCert cm hca hnew hwatch
      hdial hcall]
    refine ⟨by simp [List.filter, Event.isCallContext], ?_, ?_⟩
    · intro v hv
      cases hv
    · intro e he
      cases he

/-- Witness of C9: the one remote call of a construction in `healthyWorld`. -/
theorem NewSignerClient_probe_once_witness :
    (NewSignerClient healthyWorld demoLogger "https://signer:8080" demoConfig).2.filter
        Event.isCallContext =
      [.CallContext (.WithTimeout .Background (3 * Second)) "health_status" []] :=
  (NewSignerClient_probe_once healthyWorld demoLogger "https://signer:8080" demoConfig
    [45, 45, 45] 1 rfl rfl rfl rfl).1

/-- C10. When `NewSignerClient` builds its transport (CA file read, watcher created and
started), the one HTTP client it dials with has a TLS configuration with minimum version
TLS 1.3, certificate verification left on, and as root pool exactly what
`AppendCertsFromPEM` makes of a new, empty pool and the contents of the CA file; every
client the construction returns talks through that HTTP client. -/
theorem NewSignerClient_tls_config (w : World Tx Args) (logger : Logger) (endpoint : String)
    (tlsConfig : CLIConfig) (caCert : Bytes) (cm : CertManRef)
    (hca : w.ReadFile tlsConfig.TLSCaCert = .ok caCert)
    (hnew : w.certmanNew tlsConfig.TLSCert tlsConfig.TLSKey = (some cm, none))
    (hwatch : w.certmanWatch cm = none) :
    ∃ httpClient, dialedWith (NewSignerClient w logger endpoint tlsConfig).2 = [httpClient] ∧
      httpClient.Transport.TLSClientConfig.MinVersion = VersionTLS13 ∧
      httpClient.Transport.TLSClientConfig.InsecureSkipVerify = false ∧
      httpClient.Transport.TLSClientConfig.RootCAs =
        (w.AppendCertsFromPEM NewCertPool caCert).1 ∧
      ∀ c, (NewSignerClient w logger endpoint tlsConfig).1 = .returned (some c, none) →
        c.client.httpClient = httpClient := by
  have h := NewSignerClient_dials_with w logger endpoint tlsConfig caCert cm hca hnew hwatch
  exact ⟨newHTTPClient w (w.AppendCertsFromPEM NewCertPool caCert).1 cm, h.1, rfl, rfl, rfl,
    h.2⟩

/-- Witness of C10: the TLS configuration of a construction in `healthyWorld`, whose CA file
holds the one certificate `demoRoot`. -/
theorem NewSignerClient_tls_config_witness :
    ∃ httpClient,
      dialedWith (NewSignerClient healthyWorld demoLogger "https://signer:8080" demoConfig).2 =
        [httpClient] ∧
      httpClient.Transport.TLSClientConfig.MinVersion = 0x0304 ∧
      httpClient.Transport.TLSClientConfig.InsecureSkipVerify = false ∧
      httpClient.Transport.TLSClientConfig.RootCAs = [demoRoot] ∧
      ∀ c, (NewSignerClient healthyWorld demoLogger "https://signer:8080" demoConfig).1 =
          .returned (some c, none) → c.client.httpClient = httpClient :=
  NewSignerClient_tls_config healthyWorld demoLogger "https://signer:8080" demoConfig
    [45, 45, 45] 1 rfl rfl rfl

/-- C5. The client-certificate callback of the TLS configuration `NewSignerClient` dials
with (and hands to the client it returns) reads the watcher when it is invoked: for every
sequence of memory states after construction and every certificate request, the invocation
in each state returns exactly what `GetCertificate(nil)` of the watcher `cm` returns in
that state, certificate and error alike. -/
theorem GetClientCertificate_reads_watcher (w : World Tx Args) (logger : Logger)
    (endpoint : String) (tlsConfig : CLIConfig) (caCert : Bytes) (cm : CertManRef)
    (hca : w.ReadFile tlsConfig.TLSCaCert = .ok caCert)
    (hnew : w.certmanNew tlsConfig.TLSCert tlsConfig.TLSKey = (some cm, none))
    (hwatch : w.certmanWatch cm = none) :
    ∃ httpClient, dialedWith (NewSignerClient w logger endpoint tlsConfig).2 = [httpClient] ∧
      (∀ c, (NewSignerClient w logger endpoint tlsConfig).1 = .returned (some c, none) →
        c.client.httpClient = httpClient) ∧
      ∀ (heaps : List Heap) (info : CertificateRequestInfo),
        heaps.map (fun heap =>
            httpClient.Transport.TLSClientConfig.GetClientCertificate heap info) =
          heaps.map (fun heap => w.certmanGetCertificate (heap cm) none) := by
  have h := NewSignerClient_dials_with w logger endpoint tlsConfig caCert cm hca hnew hwatch
  exact ⟨newHTTPClient w (w.AppendCertsFromPEM NewCertPool caCert).1 cm, h.1, h.2,
    fun _ _ => rfl⟩

/-- Witness of C5: the watcher holds `pairA` at a first handshake and `pairB` at the next;
the callback of the one transport returns `pairA`, then `pairB`. -/
theorem GetClientCertificate_reads_watcher_witness :
    ∃ httpClient,
      dialedWith (NewSignerClient healthyWorld demoLogger "https://signer:8080" demoConfig).2 =
        [httpClient] ∧
      [heapWith pairA, heapWith pairB].map (fun heap =>
          httpClient.Transport.TLSClientConfig.GetClientCertificate heap
            { AcceptableCAs := [], Version := 0x0304 }) =
        [(some pairA, none), (some pairB, none)] :=
  let ⟨httpClient, hdial, _, hcall⟩ :=
    GetClientCertificate_reads_watcher healthyWorld demoLogger "https://signer:8080" demoConfig
      [45, 45, 45] 1 rfl rfl rfl
  ⟨httpClient, hdial,
    hcall [heapWith pairA, heapWith pairB] { AcceptableCAs := [], Version := 0x0304 }⟩

/-- C2, as the code has it. When the CA file is read and no certificate parses from it (the
pool stays empty and `AppendCertsFromPEM` reports false), `NewSignerClient` goes on: once
the watcher is created and started it dials with a transport whose root pool is that empty
pool, and it returns a client, with that transport, exactly when the dial and the
`health_status` probe succeed. -/
theorem NewSignerClient_malformed_ca_proceeds (w : World Tx Args) (logger : Logger)
    (endpoint : String) (tlsConfig : CLIConfig) (caCert : Bytes) (cm : CertManRef)
    (hca : w.ReadFile tlsConfig.TLSCaCert = .ok caCert)
    (hmalformed : w.AppendCertsFromPEM NewCertPool caCert = ([], false))
    (hnew : w.certmanNew tlsConfig.TLSCert tlsConfig.TLSKey = (some cm, none))
    (hwatch : w.certmanWatch cm = none) :
    dialedWith (NewSignerClient w logger endpoint tlsConfig).2 = [newHTTPClient w [] cm] ∧
      (newHTTPClient w [] cm).Transport.TLSClientConfig.RootCAs = [] ∧
      ((∃ c, (NewSignerClient w logger endpoint tlsConfig).1 = .returned (some c, none) ∧
          c.client.httpClient = newHTTPClient w [] cm) ↔
        (w.DialOptions .Background endpoint (newHTTPClient w [] cm) = none ∧
          ∃ v, (SignerClient.pingVersion w
            { client := { endpoint := endpoint, httpClient := newHTTPClient w [] cm }
              status := ""
              logger := logger }).1 = .returned (v, none))) := by
  have hpool : (w.AppendCertsFromPEM NewCertPool caCert).1 = [] := by rw [hmalformed]
  have h := NewSignerClient_dials_with w logger endpoint tlsConfig caCert cm hca hnew hwatch
  rw [hpool] at h
  refine ⟨h.1, rfl, ?_⟩
  cases hdial : w.DialOptions .Background endpoint (newHTTPClient w [] cm) with
  | some e =>
    rw [NewSignerClient_dial_fails w logger endpoint tlsConfig caCert cm e hca hnew hwatch
      (by rw [hpool]; exact hdial)]
    simp
  | none =>
    rw [pingVersion_eq]
    rcases hcall : (w.CallContextString
        { endpoint := endpoint, httpClient := newHTTPClient w [] cm }
        (.WithTimeout .Background 3000000000) "health_status" []) with (e | v) | _
    · rw [NewSignerClient_probe_fails w logger endpoint tlsConfig caCert cm e hca hnew hwatch
        (by rw [hpool]; exact hdial) (by rw [hpool]; exact hcall)]
      simp
    · rw [NewSignerClient_probe_ok w logger endpoint tlsConfig caCert cm v hca hnew hwatch
        (by rw [hpool]; exact hdial) (by rw [hpool]; exact hcall)]
      simp [hpool]
    · rw [NewSignerClient_probe_dies w logger endpoint tlsConfig caCert cm hca hnew hwatch
        (by rw [hpool]; exact hdial) (by rw [hpool]; exact hcall)]
      simp

/-- Witness of C2 as the code has it: in `malformedCAWorld` the construction returns a
client. -/
theorem NewSignerClient_malformed_ca_proceeds_witness :
    ∃ c, (NewSignerClient malformedCAWorld demoLogger "http://signer:8080" demoConfig).1 =
        .returned (some c, none) ∧
      c.client.httpClient = newHTTPClient malformedCAWorld [] 1 :=
  (NewSignerClient_malformed_ca_proceeds malformedCAWorld demoLogger "http://signer:8080"
    demoConfig [104, 105] 1 rfl rfl rfl rfl).2.2.2 ⟨rfl, _, rfl⟩

/-- C2 fails as stated: the CA file of `malformedCAWorld` is read and holds no certificate
(the pool stays empty, `AppendCertsFromPEM` reports false), and `NewSignerClient` returns a
client with a nil error, whose transport has the empty pool as root pool. -/
theorem NewSignerClient_malformed_ca_counterexample :
    malformedCAWorld.ReadFile demoConfig.TLSCaCert = .ok [104, 105] ∧
      malformedCAWorld.AppendCertsFromPEM NewCertPool [104, 105] = ([], false) ∧
      ∃ c, (NewSignerClient malformedCAWorld demoLogger "http://signer:8080" demoConfig).1 =
          .returned (some c, none) ∧
        c.client.httpClient.Transport.TLSClientConfig.RootCAs = [] :=
  ⟨rfl, rfl, _, rfl, rfl⟩

/-- C6, as the code has it. No run of `NewSignerClient` calls `Stop` on a watcher; and when
`NewSignerClient` returns an error after the watcher has been started (the dial or the
probe failed), the watcher is still running when it returns. -/
theorem NewSignerClient_never_stops_watcher (w : World Tx Args) (logger : Logger)
    (endpoint : String) (tlsConfig : CLIConfig) :
    hasStop (NewSignerClient w logger endpoint tlsConfig).2 = false ∧
      ∀ (caCert : Bytes) (cm : CertManRef) (e : GoError),
        w.ReadFile tlsConfig.TLSCaCert = .ok caCert →
        w.certmanNew tlsConfig.TLSCert tlsConfig.TLSKey = (some cm, none) →
        w.certmanWatch cm = none →
        (NewSignerClient w logger endpoint tlsConfig).1 = .returned (none, some e) →
        watcherRunning w cm (NewSignerClient w logger endpoint tlsConfig).2 = true :=
  ⟨NewSignerClient_hasStop w logger endpoint tlsConfig,
    fun caCert cm _ hca hnew hwatch _ =>
      NewSignerClient_leaves_running w logger endpoint tlsConfig caCert cm hca hnew hwatch⟩

/-- Witness of C6 as the code has it: the construction in `probeFailsWorld` returns the error
of the probe, has made no `Stop` call, and leaves watcher 1 running. -/
theorem NewSignerClient_never_stops_watcher_witness :
    hasStop (NewSignerClient probeFailsWorld demoLogger "https://signer:8080" demoConfig).2 =
        false ∧
      watcherRunning probeFailsWorld 1
        (NewSignerClient probeFailsWorld demoLogger "https://signer:8080" demoConfig).2 = true :=
  ⟨(NewSignerClient_never_stops_watcher probeFailsWorld demoLogger "https://signer:8080"
      demoConfig).1,
    (NewSignerClient_never_stops_watcher probeFailsWorld demoLogger "https://signer:8080"
      demoConfig).2 [45, 45, 45] 1 (.errorString "context deadline exceeded") rfl rfl rfl rfl⟩

/-- C6 fails as stated: in `dialFailsWorld` the watcher is created and started, the dial
fails, `NewSignerClient` returns that error and a nil client, and the watcher it started is
running when it returns: the run has no `Stop` call. -/
theorem NewSignerClient_watcher_leak_counterexample :
    dialFailsWorld.certmanWatch 1 = none ∧
      NewSignerClient dialFailsWorld demoLogger "tcp://signer:8080" demoConfig =
        (.returned (none, some (.errorString "no known transport for URL scheme tcp")),
          [.ReadFile "tls/ca.crt", .certmanNew "tls/tls.crt" "tls/tls.key",
            .certmanLogger (some 1) demoLogger, .certmanWatch 1,
            .DialOptions .Background "tcp://signer:8080"
              (newHTTPClient dialFailsWorld [demoRoot] 1)]) ∧
      watcherRunning dialFailsWorld 1
        (NewSignerClient dialFailsWorld demoLogger "tcp://signer:8080" demoConfig).2 = true :=
  ⟨rfl, rfl, rfl⟩

/-- C7 at a failing input. In `newFailsWorld`, `certman.New` fails with a nil watcher and an
error; `NewSignerClient` calls `Logger` on that nil watcher before it looks at the error,
and panics there instead of returning the error. -/
theorem NewSignerClient_new_failure_panics :
    newFailsWorld.certmanNew demoConfig.TLSCert demoConfig.TLSKey =
        (none, some (.errorString "getwd: no such file or directory")) ∧
      NewSignerClient newFailsWorld demoLogger "https://signer:8080" demoConfig =
        (.panicked,
          [.ReadFile "tls/ca.crt", .certmanNew "tls/tls.crt" "tls/tls.key",
            .certmanLogger none demoLogger]) :=
  ⟨rfl, rfl⟩

end OpSigner
